import Mathlib

/-!
Verification development for the FLprod media-tracking repository.

The catalog store (src/hooks/useDataStore.tsx) and the import-text parser
(the ImportModal component) are shallowly embedded below.  JavaScript strings
become `String`/`List Char`, `toLowerCase` is modelled as ASCII lowercasing
(`lcChar`), optional fields become `Option`, and JavaScript truthiness is
spelled out at each use site (`none`/`some 0`/`some ""` are falsy).  A thrown
`TypeError` (access on `undefined`) is modelled by an operation returning
`none`.  The nondeterministic id sources (`Date.now()`, `Math.random()`) are
passed in as explicit oracle arguments.  The parser's floating-point
confidence score is modelled exactly in tenths (a `Nat`: 5 for 0.5, 3 for
0.3, 1 for 0.1, cap at 10 for 1.0) — every increment and the cap in the
source are multiples of 0.1, where double rounding cannot move any
comparison or capped value used below.
-/

/-- The five category buckets of a catalog (`completed | inProgress | planned
| fails | allTime`). -/
inductive Category where
  | completed
  | inProgress
  | planned
  | fails
  | allTime
deriving DecidableEq, Repr

/-- A stored item (the `Book`/`Movie` shape used by useDataStore.tsx; field
list per the store's usage and spec section 3).  `author` holds the director
for movies. -/
structure Item where
  id : Nat
  title : String
  author : String
  year : Int
  category : Category
  rating : Option Nat := none
  format : Option String := none
  percentage : Option Nat := none
  notes : Option String := none
  source : Option String := none
  completedDate : Option String := none
  dateStarted : Option String := none
  dateAdded : Option String := none
  dateAbandoned : Option String := none
  isAllTime : Bool := false
deriving DecidableEq, Repr

/-- The argument of `addBook`/`addMovie`/`importItems`: an item without an
`id` (`Omit<Book, 'id'>`).  `category` is an `Option` because the code
defends against a missing category with `book.category || 'planned'`. -/
structure NewBook where
  title : String
  author : String
  year : Int
  category : Option Category := none
  rating : Option Nat := none
  format : Option String := none
  percentage : Option Nat := none
  notes : Option String := none
  source : Option String := none
  completedDate : Option String := none
  dateStarted : Option String := none
  dateAdded : Option String := none
  dateAbandoned : Option String := none
  isAllTime : Bool := false
deriving DecidableEq, Repr

/-- One catalog: the record `{ completed, inProgress, planned, fails,
allTime }` of item lists (`BookData`/`MovieData`). -/
structure Catalog where
  completed : List Item
  inProgress : List Item
  planned : List Item
  fails : List Item
  allTime : List Item
deriving DecidableEq, Repr

def Catalog.get (s : Catalog) : Category → List Item
  | .completed => s.completed
  | .inProgress => s.inProgress
  | .planned => s.planned
  | .fails => s.fails
  | .allTime => s.allTime

def Catalog.set (s : Catalog) : Category → List Item → Catalog
  | .completed, l => { s with completed := l }
  | .inProgress, l => { s with inProgress := l }
  | .planned, l => { s with planned := l }
  | .fails, l => { s with fails := l }
  | .allTime, l => { s with allTime := l }

/-- `Object.keys(prevBooks)` in the literal's insertion order. -/
def categoriesList : List Category :=
  [.completed, .inProgress, .planned, .fails, .allTime]

/-- Apply a function to every bucket (the removal loop of `updateBook`). -/
def Catalog.mapAll (f : List Item → List Item) (s : Catalog) : Catalog :=
  ⟨f s.completed, f s.inProgress, f s.planned, f s.fails, f s.allTime⟩

def emptyCatalog : Catalog := ⟨[], [], [], [], []⟩

/-- ASCII lowercasing of one character, the model of the `toLowerCase`
calls (all compared data in the repository is ASCII or emoji, and emoji are
fixed points of `toLowerCase`). -/
def lcChar (c : Char) : Char :=
  if 'A' ≤ c ∧ c ≤ 'Z' then Char.ofNat (c.toNat + 32) else c

/-- `a.toLowerCase() === b.toLowerCase()` on JavaScript strings. -/
def lowerEq (a b : String) : Bool :=
  decide (a.data.map lcChar = b.data.map lcChar)

/-- The duplicate test of `addBook`/`addMovie`: case-insensitive equality of
both `title` and `author`. -/
def dupOf (x y : Item) : Bool :=
  lowerEq x.title y.title && lowerEq x.author y.author

/-- `Date.now() + Math.floor(Math.random() * 100000)`, the id generator of
`addBook`/`addMovie`; `ts` is the wall-clock millisecond reading and `rand`
the floored random draw (`rand < 100000`). -/
def genId (ts rand : Nat) : Nat := ts + rand

/-- The `newBook` object built at the top of `addBook`:
`{ ...book, id, category: book.category || 'planned',
percentage: book.percentage || (book.category === 'completed' ? 100 : 0) }`. -/
def mkNewBook (uid : Nat) (b : NewBook) : Item :=
  { id := uid
    title := b.title
    author := b.author
    year := b.year
    category := b.category.getD .planned
    rating := b.rating
    format := b.format
    percentage := some (match b.percentage with
      | some p => if p ≠ 0 then p
          else (if b.category = some Category.completed then 100 else 0)
      | none => if b.category = some Category.completed then 100 else 0)
    notes := b.notes
    source := b.source
    completedDate := b.completedDate
    dateStarted := b.dateStarted
    dateAdded := b.dateAdded
    dateAbandoned := b.dateAbandoned
    isAllTime := b.isAllTime }

/-- `addBook` (identically `addMovie`): the category-existence check is
statically true here because `mkNewBook` returns a `Category`; the duplicate
check rejects into an unchanged state; the all-time mirror block runs
afterwards, outside the duplicate check, exactly as in the source. -/
def addBook (uid : Nat) (b : NewBook) (s : Catalog) : Catalog :=
  let nb := mkNewBook uid b
  let s1 :=
    if (s.get nb.category).any (fun it => dupOf it nb) then s
    else s.set nb.category ((s.get nb.category) ++ [nb])
  if nb.isAllTime && (nb.category ≠ Category.allTime : Bool) then
    { s1 with allTime :=
        (s1.allTime.filter (fun it => it.id ≠ nb.id)) ++ [{ nb with isAllTime := true }] }
  else s1

/-- `updateBook` (identically `updateMovie`): locate the current bucket by
scanning all buckets for `bookId`; if absent the first state update is a
no-op; otherwise remove `bookId` from every bucket and append `updatedBook`
to its target bucket.  The second state update (all-time reconciliation)
always runs and filters by `updatedBook.id`, exactly as in the source. -/
def updateBook (bookId : Nat) (u : Item) (s : Catalog) : Catalog :=
  let s1 :=
    if categoriesList.any (fun c => (s.get c).any (fun it => it.id = bookId)) then
      let removed := Catalog.mapAll (fun l => l.filter (fun it => it.id ≠ bookId)) s
      removed.set u.category ((removed.get u.category) ++ [u])
    else s
  if u.isAllTime && (u.category ≠ Category.allTime : Bool) then
    { s1 with allTime :=
        (s1.allTime.filter (fun it => it.id ≠ u.id)) ++ [{ u with isAllTime := true }] }
  else if !u.isAllTime then
    { s1 with allTime := s1.allTime.filter (fun it => it.id ≠ u.id) }
  else s1

/-- Runtime category-name lookup, the model of the property access
`prevBooks[category]` for an arbitrary string key: `none` is JavaScript's
`undefined`. -/
def categoryOfString (s : String) : Option Category :=
  if s = "completed" then some .completed
  else if s = "inProgress" then some .inProgress
  else if s = "planned" then some .planned
  else if s = "fails" then some .fails
  else if s = "allTime" then some .allTime
  else none

/-- The computed-key update `{ ...prev, [category]: l }`. -/
def Catalog.setKey (s : Catalog) (key : String) (l : List Item) : Catalog :=
  match categoryOfString key with
  | some c => s.set c l
  | none => s

/-- `deleteBook` (identically `deleteMovie`) over a runtime category name.
`prevBooks[category].filter` on an unknown key is `undefined.filter`, a
thrown `TypeError`, modelled as `none`; otherwise the named bucket is
filtered and the second state update unconditionally purges the id from
`allTime`. -/
def deleteBook (bookId : Nat) (category : String) (s : Catalog) : Option Catalog :=
  match (categoryOfString category).map s.get with
  | none => none
  | some items =>
    let s1 := s.setKey category (items.filter (fun it => it.id ≠ bookId))
    some { s1 with allTime := s1.allTime.filter (fun it => it.id ≠ bookId) }

/-- `{ ...book, id }` as built inside `importItems`: all fields verbatim, no
percentage defaulting, no duplicate check. -/
def importedItem (uid : Nat) (b : NewBook) (c : Category) : Item :=
  { id := uid
    title := b.title
    author := b.author
    year := b.year
    category := c
    rating := b.rating
    format := b.format
    percentage := b.percentage
    notes := b.notes
    source := b.source
    completedDate := b.completedDate
    dateStarted := b.dateStarted
    dateAdded := b.dateAdded
    dateAbandoned := b.dateAbandoned
    isAllTime := b.isAllTime }

/-- The book half of `importItems` from call index `k`: each item is
appended to its category bucket (a missing category would make
`newBooks[book.category]` a spread of `undefined`, a thrown `TypeError`
aborting the whole updater, hence `none`), then the all-time mirror is
reconciled.  `idOf` is the oracle for `Date.now() + Math.random() * 1000`
at each iteration. -/
def importBooksFrom (idOf : Nat → Nat) : Nat → List NewBook → Catalog → Option Catalog
  | _, [], s => some s
  | k, b :: bs, s =>
    match b.category with
    | none => none
    | some c =>
      let nb := importedItem (idOf k) b c
      let s1 := s.set c ((s.get c) ++ [nb])
      let s2 :=
        if b.isAllTime && (c ≠ Category.allTime : Bool) then
          { s1 with allTime :=
              (s1.allTime.filter (fun it => it.id ≠ nb.id)) ++ [{ nb with isAllTime := true }] }
        else s1
      importBooksFrom idOf (k + 1) bs s2

/-- `importItems` restricted to one catalog (books; the movie half is the
same code on the other catalog). -/
def importBooks (idOf : Nat → Nat) (items : List NewBook) (s : Catalog) : Option Catalog :=
  importBooksFrom idOf 0 items s

/-- The seeded `initialBooks` state of the provider. -/
def initialBooks : Catalog :=
  { completed :=
      [ { id := 1, title := "The Wager", author := "David Grann", year := 2024,
          category := .completed, rating := some 4, format := some "text",
          completedDate := some "2024-01-15" }
      , { id := 2, title := "The Devil\x27s Star", author := "Jo Nesbo", year := 2024,
          category := .completed, rating := some 3, format := some "text",
          completedDate := some "2024-02-10" } ]
    inProgress :=
      [ { id := 100, title := "James", author := "Percival Everett", year := 2025,
          category := .inProgress, percentage := some 50, format := some "text",
          dateStarted := some "2025-01-20" } ]
    planned :=
      [ { id := 200, title := "Project Hail Mary", author := "Andy Weir", year := 2025,
          category := .planned, format := some "text", dateAdded := some "2025-01-20" } ]
    fails :=
      [ { id := 300, title := "First Life", author := "Unknown", year := 2024,
          category := .fails, percentage := some 5, format := some "text",
          dateAbandoned := some "2024-03-15" } ]
    allTime :=
      [ { id := 400, title := "The Lord of the Rings", author := "J.R.R. Tolkien", year := 2023,
          category := .allTime, rating := some 5, format := some "text",
          completedDate := some "2023-08-15", isAllTime := true,
          notes := some "Life-changing epic fantasy" } ] }

/-- A bucket holds no two items agreeing case-insensitively on both title
and author. -/
def dupFreeL : List Item → Bool
  | [] => true
  | x :: xs => !(xs.any (fun y => dupOf x y)) && dupFreeL xs

/-- The per-bucket uniqueness invariant over a whole catalog. -/
def catalogDupFree (s : Catalog) : Bool :=
  dupFreeL s.completed && dupFreeL s.inProgress && dupFreeL s.planned &&
    dupFreeL s.fails && dupFreeL s.allTime

/-!
The import-text parser (`parseImportText` in the ImportModal component).
All scanning is done over `List Char`; a JavaScript regular expression is
replaced by a direct implementation of its matching semantics (leftmost
match, greedy quantifiers with the backtracking the pattern admits), noted
at each definition.
-/

/-- `\s` of the patterns and `String.prototype.trim` (the whitespace actually
occurring in the repository's data). -/
def isWsCh (c : Char) : Bool :=
  c = ' ' || c = '\t' || c = '\n' || c = '\r'

def trimCh (l : List Char) : List Char :=
  ((l.dropWhile isWsCh).reverse.dropWhile isWsCh).reverse

def isPrefixOfL : List Char → List Char → Bool
  | [], _ => true
  | _ :: _, [] => false
  | a :: as, b :: bs => a = b && isPrefixOfL as bs

/-- Does `pat` occur as a contiguous run inside `hay`
(`String.prototype.includes`)? -/
def containsL (pat : List Char) : List Char → Bool
  | [] => isPrefixOfL pat []
  | c :: rest => isPrefixOfL pat (c :: rest) || containsL pat rest

/-- `lowerLine.includes(kw)`. -/
def inclKw (lowerLine : List Char) (kw : String) : Bool :=
  containsL kw.data lowerLine

/-- `text.split('\n')`. -/
def splitLinesCh : List Char → List (List Char)
  | [] => [[]]
  | c :: rest =>
    if c = '\n' then [] :: splitLinesCh rest
    else
      match splitLinesCh rest with
      | [] => [[c]]
      | l :: ls => (c :: l) :: ls

def completedKeywords : List String :=
  ["completed", "finished", "done", "read", "watched", "✅", "✓"]

def inProgressKeywords : List String :=
  ["reading", "watching", "current", "in progress", "📖", "🎥"]

def plannedKeywords : List String :=
  ["want to", "planned", "to read", "to watch", "wishlist", "📋", "🎯"]

def failsKeywords : List String :=
  ["dnf", "stopped", "abandoned", "did not finish", "❌"]

def allTimeKeywords : List String :=
  ["favorite", "all time", "best", "🏆", "⭐"]

def bookKeywords : List String :=
  ["book", "novel", "author", "read", "reading", "📚", "isbn"]

def movieKeywords : List String :=
  ["movie", "film", "director", "watched", "watching", "🎬", "cinema"]

/-- The carried type state (`currentType`). -/
inductive TType where
  | book
  | movie
  | unknown
deriving DecidableEq, Repr

/-- The carried parser state across lines. -/
structure ParseState where
  currentCategory : Category
  currentType : TType
deriving DecidableEq, Repr

/-- A candidate produced by the parser (`ParsedItem`); `confidence` holds
the score in exact tenths (7 means 0.7). -/
structure ParsedItem where
  title : String
  author : String
  year : Option Nat
  rating : Option Nat
  notes : Option String
  format : Option String
  category : Category
  isBook : Bool
  confidence : Nat
deriving DecidableEq, Repr

/-- Group 2 of `line.match(/^(\d+\.?\s*)?(.+)/)`: strip a greedy leading
`digits, optional dot, spaces` prefix; when that prefix would swallow the
whole line the backtracking `(.+)` recovers the final character. -/
def matchGroup2 (line : List Char) : List Char :=
  if (line.takeWhile Char.isDigit).isEmpty then line
  else
    let r1 := line.dropWhile Char.isDigit
    let r2 :=
      match r1 with
      | '.' :: rest => rest.dropWhile isWsCh
      | _ => r1.dropWhile isWsCh
    if r2.isEmpty then
      match line.getLast? with
      | some c => [c]
      | none => []
    else r2

/-- `itemText.replace(/^\d+\.?\s*/, '')` (may leave the empty string). -/
def replaceOrdinal (l : List Char) : List Char :=
  if (l.takeWhile Char.isDigit).isEmpty then l
  else
    let r1 := l.dropWhile Char.isDigit
    match r1 with
    | '.' :: rest => rest.dropWhile isWsCh
    | _ => r1.dropWhile isWsCh

def isQuoteCh (c : Char) : Bool :=
  c = '"' || c.toNat = 39

/-- `.replace(/^["\x27]|["\x27]$/g, '')`: drop at most one leading and one
trailing quote character. -/
def stripQuotesEnds (l : List Char) : List Char :=
  let l1 :=
    match l with
    | c :: rest => if isQuoteCh c then rest else l
    | [] => []
  match l1.getLast? with
  | some c => if isQuoteCh c then l1.dropLast else l1
  | none => l1

/-- The segment `\s+by\s+` (case-insensitive) at the head of `l`, returning
what follows the final whitespace expansion: the leading `\s+` is maximal
(deterministic, `b` is not whitespace); the trailing `\s+` consumes one
character, any further whitespace belonging to the following `[^(]+` group
(whose value is trimmed by the caller, so the split point is unobservable). -/
def matchByGap (l : List Char) : Option (List Char) :=
  if (l.takeWhile isWsCh).isEmpty then none
  else
    match l.dropWhile isWsCh with
    | b :: y :: r2 =>
      if lcChar b = 'b' && lcChar y = 'y' then
        match r2 with
        | w :: tail => if isWsCh w then some tail else none
        | [] => none
      else none
    | _ => none

/-- Pattern 1, `/"([^"]+)"\s+by\s+([^(]+)/i`: scan for a quote; the quoted
content runs to the next quote (nonempty); then `\s+by\s+`; then a nonempty
`[^(]+`.  A failed attempt resumes scanning one character later. -/
def pat1 : List Char → Option (List Char × List Char)
  | [] => none
  | c :: rest =>
    if c = '"' then
      let content := rest.takeWhile (fun d => d ≠ '"')
      match rest.dropWhile (fun d => d ≠ '"') with
      | _ :: tail =>
        if content.isEmpty then pat1 rest
        else
          match matchByGap tail with
          | some tail2 =>
            let g2 := tail2.takeWhile (fun d => d ≠ '(')
            if g2.isEmpty then pat1 rest else some (content, g2)
          | none => pat1 rest
      | [] => pat1 rest
    else pat1 rest

/-- Pattern 2, `/([^-]+)\s+-\s+([^(]+)/i`.  A match uses the first dash that
is preceded by whitespace with a nonempty `[^-]+` before it (the dash-free
segment since the previous dash) and followed by whitespace and a nonempty
`[^(]+`; `seg` accumulates the current dash-free segment in reverse. -/
def pat2Go : List Char → List Char → Option (List Char × List Char)
  | _, [] => none
  | seg, c :: rest =>
    if c = '-' then
      let attempt : Option (List Char × List Char) :=
        match seg with
        | w :: ps =>
          if isWsCh w && !ps.isEmpty then
            match rest with
            | w2 :: tail =>
              if isWsCh w2 then
                let g2 := tail.takeWhile (fun d => d ≠ '(')
                if g2.isEmpty then none else some (ps.reverse, g2)
              else none
            | [] => none
          else none
        | [] => none
      attempt.orElse (fun _ => pat2Go [] rest)
    else pat2Go (c :: seg) rest

def pat2 (l : List Char) : Option (List Char × List Char) := pat2Go [] l

/-- Pattern 3, `/([^,]+),\s+([^(]+)/i`: the first comma with a nonempty
comma-free segment before it, whitespace after it, and a nonempty `[^(]+`. -/
def pat3Go : List Char → List Char → Option (List Char × List Char)
  | _, [] => none
  | seg, c :: rest =>
    if c = ',' then
      let attempt : Option (List Char × List Char) :=
        if seg.isEmpty then none
        else
          match rest with
          | w2 :: tail =>
            if isWsCh w2 then
              let g2 := tail.takeWhile (fun d => d ≠ '(')
              if g2.isEmpty then none else some (seg.reverse, g2)
            else none
          | [] => none
      attempt.orElse (fun _ => pat3Go [] rest)
    else pat3Go (c :: seg) rest

def pat3 (l : List Char) : Option (List Char × List Char) := pat3Go [] l

/-- Split the last occurrence of `\s+by\s+` (minimal whitespace on both
sides — the surrounding greedy groups absorb the rest) with a nonempty
remainder after it; the greedy `([^(]+)` group prefers the latest split. -/
def lastByGap : List Char → Option (List Char × List Char)
  | [] => none
  | c :: rest =>
    match lastByGap rest with
    | some (g1, g2) => some (c :: g1, g2)
    | none =>
      match c :: rest with
      | w1 :: b :: y :: w2 :: g2 =>
        if isWsCh w1 && lcChar b = 'b' && lcChar y = 'y' && isWsCh w2 && !g2.isEmpty
        then some ([], g2) else none
      | _ => none

def splitOnParen : List Char → List (List Char)
  | [] => [[]]
  | c :: rest =>
    if c = '(' then [] :: splitOnParen rest
    else
      match splitOnParen rest with
      | [] => [[c]]
      | l :: ls => (c :: l) :: ls

/-- Pattern 4, `/([^(]+)\s+by\s+([^(]+)/i`: the whole match lives in a
single `(`-free window; within the leftmost matching window the greedy
`([^(]+)` picks the last `by` separator with a nonempty group on each
side. -/
def pat4 (l : List Char) : Option (List Char × List Char) :=
  (splitOnParen l).foldl
    (fun acc w =>
      acc.orElse (fun _ =>
        match lastByGap w with
        | some (g1, g2) => if g1.isEmpty then none else some (g1, g2)
        | none => none))
    none

def digToNat (c : Char) : Nat := c.toNat - 48

/-- `/\((\d{4})\)/`: the first parenthesis followed by exactly four digits
and a closing parenthesis. -/
def yearExtract : List Char → Option Nat
  | [] => none
  | c :: rest =>
    if c = '(' then
      match rest with
      | a :: b :: d :: e :: cl :: _ =>
        if a.isDigit && b.isDigit && d.isDigit && e.isDigit && cl = ')' then
          some (digToNat a * 1000 + digToNat b * 100 + digToNat d * 10 + digToNat e)
        else yearExtract rest
      | _ => yearExtract rest
    else yearExtract rest

def parseDigits (l : List Char) : Nat :=
  l.foldl (fun n c => n * 10 + digToNat c) 0

/-- `/(\d+)\/5|⭐\s*(\d+)|★+/` followed by the source's group dispatch: a
digit run before `/5` is the rating; else a `⭐` followed by optional
whitespace and digits; else a `★` run makes the rating the count of ALL
`★` characters in the item text. -/
def ratingExtract (full : List Char) : Option Nat :=
  go full
where
  go : List Char → Option Nat
    | [] => none
    | c :: rest =>
      if c.isDigit then
        let ds := (c :: rest).takeWhile Char.isDigit
        match (c :: rest).drop ds.length with
        | '/' :: '5' :: _ => some (parseDigits ds)
        | _ => go rest
      else if c = '⭐' then
        let ds := (rest.dropWhile isWsCh).takeWhile Char.isDigit
        if ds.isEmpty then go rest else some (parseDigits ds)
      else if c = '★' then
        some ((full.filter (fun d => d = '★')).length)
      else go rest

/-- Consume `note` then an optional `s` then `:` (case-insensitively),
returning the remainder; the optional `s` backtracks only into the `:`. -/
def matchNotesTag : List Char → Option (List Char)
  | n :: o :: t :: e :: rest =>
    if lcChar n = 'n' && lcChar o = 'o' && lcChar t = 't' && lcChar e = 'e' then
      match rest with
      | s :: ':' :: r2 => if lcChar s = 's' then some r2 else none
      | ':' :: r2 => some r2
      | _ => none
    else none
  | _ => none

/-- `/notes?:\s*"([^"]+)"/i`: first `note[s]:` whose tail, after optional
whitespace, carries a nonempty double-quoted run. -/
def notesQuoted : List Char → Option (List Char)
  | [] => none
  | c :: rest =>
    let attempt : Option (List Char) :=
      match matchNotesTag (c :: rest) with
      | some r2 =>
        match r2.dropWhile isWsCh with
        | q :: r3 =>
          if q = '"' then
            let content := r3.takeWhile (fun d => d ≠ '"')
            match r3.dropWhile (fun d => d ≠ '"') with
            | _ :: _ => if content.isEmpty then none else some content
            | [] => none
          else none
        | [] => none
      | none => none
    attempt.orElse (fun _ => notesQuoted rest)

/-- `/notes?:\s*([^-\n]+)/i`: the greedy `\s*` yields a group starting at
the first non-whitespace character when that is not a dash; otherwise
backtracking leaves a single whitespace character as the group (trimmed to
nothing by the caller). -/
def notesUnquoted : List Char → Option (List Char)
  | [] => none
  | c :: rest =>
    let attempt : Option (List Char) :=
      match matchNotesTag (c :: rest) with
      | some r2 =>
        let ws := r2.takeWhile isWsCh
        match r2.dropWhile isWsCh with
        | d :: _ =>
          if d ≠ '-' then
            some ((r2.dropWhile isWsCh).takeWhile (fun e => e ≠ '-' && e ≠ '\n'))
          else if ws.isEmpty then none
          else some [' ']
        | [] => if ws.isEmpty then none else some [' ']
      | none => none
    attempt.orElse (fun _ => notesUnquoted rest)

def formatWords : List String :=
  ["hardcopy", "audio", "ebook", "streaming", "theater", "blu-ray", "dvd"]

/-- Case-insensitively consume `w` at the head of `l`. -/
def matchWordCI : List Char → List Char → Option (List Char)
  | [], l => some l
  | _ :: _, [] => none
  | w :: ws, c :: cs => if lcChar c = w then matchWordCI ws cs else none

/-- `/\[(hardcopy|audio|ebook|streaming|theater|blu-ray|dvd)\]/i` followed by
`.toLowerCase()`: the first bracket enclosing one of the vocabulary words. -/
def formatExtract : List Char → Option String
  | [] => none
  | c :: rest =>
    let attempt : Option String :=
      if c = '[' then
        formatWords.foldl
          (fun acc w =>
            acc.orElse (fun _ =>
              match matchWordCI w.data rest with
              | some (']' :: _) => some w
              | _ => none))
          none
      else none
    attempt.orElse (fun _ => formatExtract rest)

/-- The type resolution inside the `inProgress`/`planned` header branches. -/
def typeFromLine (lowerLine : List Char) (cur : TType) : TType :=
  if inclKw lowerLine "book" || bookKeywords.any (inclKw lowerLine) then .book
  else if inclKw lowerLine "movie" || movieKeywords.any (inclKw lowerLine) then .movie
  else cur

def yearTruthy : Option Nat → Bool
  | some y => y ≠ 0
  | none => false

def ratingTruthy : Option Nat → Bool
  | some r => r ≠ 0
  | none => false

/-- The item-line tail of the loop body: title/author extraction through the
four patterns with the `Unknown` fallback, field extraction, book/movie
resolution, confidence scoring, and the emission guard. -/
def parseItemLine (st : ParseState) (lowerLine line : List Char) : Option ParsedItem :=
  let itemText := trimCh (matchGroup2 line)
  let ta :=
    (((pat1 itemText).orElse (fun _ => pat2 itemText)).orElse
      (fun _ => pat3 itemText)).orElse (fun _ => pat4 itemText)
  let title :=
    match ta with
    | some (g1, _) => stripQuotesEnds (trimCh g1)
    | none =>
      let cleanText := trimCh (replaceOrdinal itemText)
      if cleanText.length > 0 then
        trimCh (cleanText.takeWhile (fun c => c ≠ '(' && c ≠ '[' && c ≠ '-'))
      else []
  let author :=
    match ta with
    | some (_, g2) => trimCh g2
    | none =>
      let cleanText := trimCh (replaceOrdinal itemText)
      if cleanText.length > 0 then "Unknown".data else []
  let year := yearExtract itemText
  let rating := ratingExtract itemText
  let notes :=
    match (notesQuoted itemText).orElse (fun _ => notesUnquoted itemText) with
    | some n => trimCh n
    | none => []
  let format := formatExtract itemText
  let isBook :=
    match st.currentType with
    | .book => true
    | .movie => false
    | .unknown =>
      let bookScore := (bookKeywords.filter (inclKw lowerLine)).length
      let movieScore := (movieKeywords.filter (inclKw lowerLine)).length
      if bookScore > movieScore then true
      else if movieScore > bookScore then false
      else !(inclKw lowerLine "director") && !(inclKw lowerLine "film")
  let confidence : Nat :=
    5
      + (if !title.isEmpty && !author.isEmpty && author ≠ "Unknown".data
         then 3 else 0)
      + (if yearTruthy year then 1 else 0)
      + (if ratingTruthy rating then 1 else 0)
      + (if format.isSome then 1 else 0)
  if !title.isEmpty && title.length > 1 then
    some { title := String.mk title
           author := String.mk (if author.isEmpty then "Unknown".data else author)
           year := year
           rating := rating
           notes := if notes.isEmpty then none else some (String.mk notes)
           format := format
           category := st.currentCategory
           isBook := isBook
           confidence := min confidence 10 }
  else none

/-- One iteration of the line loop: the ordered header rules, the
boilerplate skip, then item parsing. -/
def parseLine (st : ParseState) (line : List Char) : ParseState × Option ParsedItem :=
  let lowerLine := line.map lcChar
  if inclKw lowerLine "book" &&
      (completedKeywords.any (inclKw lowerLine) || inclKw lowerLine "completed") then
    ({ currentCategory := .completed, currentType := .book }, none)
  else if inclKw lowerLine "movie" &&
      (completedKeywords.any (inclKw lowerLine) || inclKw lowerLine "completed") then
    ({ currentCategory := .completed, currentType := .movie }, none)
  else if inProgressKeywords.any (inclKw lowerLine) then
    ({ currentCategory := .inProgress, currentType := typeFromLine lowerLine st.currentType }, none)
  else if plannedKeywords.any (inclKw lowerLine) then
    ({ currentCategory := .planned, currentType := typeFromLine lowerLine st.currentType }, none)
  else if failsKeywords.any (inclKw lowerLine) then
    ({ st with currentCategory := .fails }, none)
  else if allTimeKeywords.any (inclKw lowerLine) then
    ({ st with currentCategory := .allTime }, none)
  else if inclKw lowerLine "generated" || inclKw lowerLine "export" ||
      inclKw lowerLine "═" || inclKw lowerLine "─" then
    (st, none)
  else
    (st, parseItemLine st lowerLine line)

/-- `parseImportText`: split into non-blank lines and fold the line loop
from the default state (`currentCategory = 'completed'`,
`currentType = 'unknown'`). -/
def parseImportText (text : String) : List ParsedItem :=
  let lines := (splitLinesCh text.data).filter (fun l => (trimCh l).length > 0)
  (lines.foldl
    (fun (acc : ParseState × List ParsedItem) line =>
      let r := parseLine acc.1 line
      (r.1, acc.2 ++ r.2.toList))
    ({ currentCategory := .completed, currentType := .unknown }, [])).2

/-!
The export formatter (`formatItem` inside `generateComprehensiveExport`).
Each `if (field) itemText += ...` statement of the source becomes one step
function; the locale-dependent date rendering (`toLocaleDateString`) is an
environment parameter `fd`.
-/

/-- `formatLabels[item.format] || item.format` for the book/movie label
tables. -/
def formatLabel (isBook : Bool) (f : String) : String :=
  if isBook then
    if f = "text" then "Hardcopy"
    else if f = "audio" then "Audio"
    else if f = "ebook" then "eBook"
    else f
  else
    if f = "streaming" then "Streaming"
    else if f = "theater" then "Theater"
    else if f = "bluray" then "Blu-ray"
    else if f = "dvd" then "DVD"
    else f

/-- The initial line: `${index + 1}. "${item.title}" by ${item.author}
(${item.year})`. -/
def fmtBase (item : Item) (index : Nat) : String :=
  toString (index + 1) ++ ". \"" ++ item.title ++ "\" by " ++ item.author
    ++ " (" ++ toString item.year ++ ")"

def fmtFormatStep (isBook : Bool) (item : Item) (t : String) : String :=
  match item.format with
  | some f => if f ≠ "" then t ++ " [" ++ formatLabel isBook f ++ "]" else t
  | none => t

def fmtRatingStep (item : Item) (t : String) : String :=
  match item.rating with
  | some r => if r ≠ 0 then t ++ " ⭐ " ++ toString r ++ "/5 stars" else t
  | none => t

def fmtPctStep (item : Item) (t : String) : String :=
  match item.percentage with
  | some p => if p ≠ 0 && p < 100 then t ++ " (" ++ toString p ++ "% complete)" else t
  | none => t

def fmtCompletedStep (fd : String → String) (item : Item) (t : String) : String :=
  match item.completedDate with
  | some d => if d ≠ "" then t ++ " - Completed: " ++ fd d else t
  | none => t

def fmtStartedStep (fd : String → String) (item : Item) (t : String) : String :=
  match item.dateStarted with
  | some d => if d ≠ "" then t ++ " - Started: " ++ fd d else t
  | none => t

def fmtAddedStep (fd : String → String) (item : Item) (t : String) : String :=
  match item.dateAdded with
  | some d => if d ≠ "" then t ++ " - Added: " ++ fd d else t
  | none => t

def fmtSourceStep (item : Item) (t : String) : String :=
  match item.source with
  | some src => if src ≠ "" then t ++ " - Source: " ++ src else t
  | none => t

def fmtAllTimeStep (item : Item) (t : String) : String :=
  if item.isAllTime then t ++ " 🏆 ALL-TIME FAVORITE" else t

def fmtNotesStep (item : Item) (t : String) : String :=
  match item.notes with
  | some n => if n ≠ "" then t ++ "\n   Notes: \"" ++ n ++ "\"" else t
  | none => t

/-- `formatItem(item, index, isBook)`: the `itemText +=` chain in source
order. -/
def formatItem (fd : String → String) (item : Item) (index : Nat) (isBook : Bool) : String :=
  fmtNotesStep item (fmtAllTimeStep item (fmtSourceStep item (fmtAddedStep fd item
    (fmtStartedStep fd item (fmtCompletedStep fd item (fmtPctStep item
      (fmtRatingStep item (fmtFormatStep isBook item (fmtBase item index)))))))))

/-!
Spec-side part functions for the export format claim: each optional field's
contribution as a standalone string, written from the spec's description
("appended only if present, in the fixed order shown").  They are compared
with `formatItem` in the refinement theorem below.
-/

def partFormat (isBook : Bool) (item : Item) : String :=
  match item.format with
  | some f => if f ≠ "" then " [" ++ formatLabel isBook f ++ "]" else ""
  | none => ""

def partRating (item : Item) : String :=
  match item.rating with
  | some r => if r ≠ 0 then " ⭐ " ++ toString r ++ "/5 stars" else ""
  | none => ""

def partPct (item : Item) : String :=
  match item.percentage with
  | some p => if p ≠ 0 && p < 100 then " (" ++ toString p ++ "% complete)" else ""
  | none => ""

def partCompleted (fd : String → String) (item : Item) : String :=
  match item.completedDate with
  | some d => if d ≠ "" then " - Completed: " ++ fd d else ""
  | none => ""

def partStarted (fd : String → String) (item : Item) : String :=
  match item.dateStarted with
  | some d => if d ≠ "" then " - Started: " ++ fd d else ""
  | none => ""

def partAdded (fd : String → String) (item : Item) : String :=
  match item.dateAdded with
  | some d => if d ≠ "" then " - Added: " ++ fd d else ""
  | none => ""

def partSource (item : Item) : String :=
  match item.source with
  | some src => if src ≠ "" then " - Source: " ++ src else ""
  | none => ""

def partAllTime (item : Item) : String :=
  if item.isAllTime then " 🏆 ALL-TIME FAVORITE" else ""

def partNotes (item : Item) : String :=
  match item.notes with
  | some n => if n ≠ "" then "\n   Notes: \"" ++ n ++ "\"" else ""
  | none => ""


/-!  Concrete inputs used by the counterexamples and witnesses below. -/

/-- Add input with a distinct title (no category: defaults to `planned`). -/
def bkAlpha : NewBook := { title := "Alpha", author := "X", year := 2020 }

/-- Second add input with a distinct title. -/
def bkBeta : NewBook := { title := "Beta", author := "Y", year := 2021 }

/-- A completed all-time favorite submitted to `add`. -/
def bkGammaAT : NewBook :=
  { title := "Gamma", author := "Z", year := 2019,
    category := some .completed, isAllTime := true }

/-- The same book without the all-time flag. -/
def bkGamma : NewBook :=
  { title := "Gamma", author := "Z", year := 2019, category := some .completed }

/-- A completed book submitted with an explicit partial percentage. -/
def bkDelta50 : NewBook :=
  { title := "Delta", author := "W", year := 2018,
    category := some .completed, percentage := some 50 }

/-- A completed book submitted with no percentage. -/
def bkDelta : NewBook :=
  { title := "Delta", author := "W", year := 2018, category := some .completed }

/-- An update payload whose id (999) appears in no bucket of
`initialBooks`, flagged as an all-time favorite. -/
def itEpsAT : Item :=
  { id := 999, title := "Eps", author := "V", year := 2017,
    category := .completed, isAllTime := true }

/-- The same update payload without the all-time flag. -/
def itEps : Item :=
  { id := 999, title := "Eps", author := "V", year := 2017, category := .completed }

/-- A bulk-import input row. -/
def bkDup : NewBook :=
  { title := "Dup", author := "Q", year := 2016, category := some .completed }

/-- A completed item carrying `percentage = 100` and no other optional
field. -/
def itPct100 : Item :=
  { id := 1, title := "A", author := "B", year := 2000,
    category := .completed, percentage := some 100 }

/-!  Supporting lemmas (shared across the claim theorems). -/

theorem Catalog.get_set_self (s : Catalog) (c : Category) (l : List Item) :
    (s.set c l).get c = l := by
  cases c <;> rfl

theorem Catalog.get_allTimeUpd (s : Catalog) (l : List Item) (c : Category)
    (h : c ≠ Category.allTime) :
    ({ s with allTime := l } : Catalog).get c = s.get c := by
  cases c
  · rfl
  · rfl
  · rfl
  · rfl
  · exact absurd rfl h

theorem lowerEq_self (a : String) : lowerEq a a = true := by
  simp [lowerEq]

theorem dupFreeL_append_single (l : List Item) (a : Item) :
    dupFreeL (l ++ [a]) = (dupFreeL l && !(l.any (fun x => dupOf x a))) := by
  induction l with
  | nil => simp [dupFreeL]
  | cons x xs ih =>
    simp only [List.cons_append, dupFreeL, List.append_eq, List.any_append,
      List.any_cons, List.any_nil, ih]
    cases xs.any (fun y => dupOf x y) <;> cases dupOf x a <;>
      cases xs.any (fun y => dupOf y a) <;> cases dupFreeL xs <;> rfl

theorem append_ne_empty_left (s t : String) (h : s.data ≠ []) : s ++ t ≠ "" := by
  intro he
  apply h
  have hd := String.ext_iff.mp he
  rw [String.data_append] at hd
  exact (List.append_eq_nil.mp hd).1

theorem append3_ne_empty (s t u : String) (h : s.data ≠ []) : s ++ t ++ u ≠ "" := by
  apply append_ne_empty_left
  rw [String.data_append]
  intro hc
  exact h (List.append_eq_nil.mp hc).1

theorem fmtFormatStep_eq (b : Bool) (it : Item) (t : String) :
    fmtFormatStep b it t = t ++ partFormat b it := by
  unfold fmtFormatStep partFormat
  cases it.format with
  | none => exact (String.append_empty t).symm
  | some f =>
    by_cases h : f = "" <;> simp [h, String.append_empty, String.append_assoc]

theorem fmtRatingStep_eq (it : Item) (t : String) :
    fmtRatingStep it t = t ++ partRating it := by
  unfold fmtRatingStep partRating
  cases it.rating with
  | none => exact (String.append_empty t).symm
  | some r =>
    by_cases h : r = 0 <;> simp [h, String.append_empty, String.append_assoc]

theorem fmtPctStep_eq (it : Item) (t : String) :
    fmtPctStep it t = t ++ partPct it := by
  unfold fmtPctStep partPct
  cases it.percentage with
  | none => exact (String.append_empty t).symm
  | some p =>
    by_cases h1 : p = 0 <;> by_cases h2 : p < 100 <;>
      simp [h1, h2, String.append_empty, String.append_assoc]

theorem fmtCompletedStep_eq (fd : String → String) (it : Item) (t : String) :
    fmtCompletedStep fd it t = t ++ partCompleted fd it := by
  unfold fmtCompletedStep partCompleted
  cases it.completedDate with
  | none => exact (String.append_empty t).symm
  | some d =>
    by_cases h : d = "" <;> simp [h, String.append_empty, String.append_assoc]

theorem fmtStartedStep_eq (fd : String → String) (it : Item) (t : String) :
    fmtStartedStep fd it t = t ++ partStarted fd it := by
  unfold fmtStartedStep partStarted
  cases it.dateStarted with
  | none => exact (String.append_empty t).symm
  | some d =>
    by_cases h : d = "" <;> simp [h, String.append_empty, String.append_assoc]

theorem fmtAddedStep_eq (fd : String → String) (it : Item) (t : String) :
    fmtAddedStep fd it t = t ++ partAdded fd it := by
  unfold fmtAddedStep partAdded
  cases it.dateAdded with
  | none => exact (String.append_empty t).symm
  | some d =>
    by_cases h : d = "" <;> simp [h, String.append_empty, String.append_assoc]

theorem fmtSourceStep_eq (it : Item) (t : String) :
    fmtSourceStep it t = t ++ partSource it := by
  unfold fmtSourceStep partSource
  cases it.source with
  | none => exact (String.append_empty t).symm
  | some src =>
    by_cases h : src = "" <;> simp [h, String.append_empty, String.append_assoc]

theorem fmtAllTimeStep_eq (it : Item) (t : String) :
    fmtAllTimeStep it t = t ++ partAllTime it := by
  unfold fmtAllTimeStep partAllTime
  cases it.isAllTime <;> simp [String.append_empty]

theorem fmtNotesStep_eq (it : Item) (t : String) :
    fmtNotesStep it t = t ++ partNotes it := by
  unfold fmtNotesStep partNotes
  cases it.notes with
  | none => exact (String.append_empty t).symm
  | some n =>
    by_cases h : n = "" <;> simp [h, String.append_empty, String.append_assoc]

theorem partFormat_ne_iff (b : Bool) (it : Item) :
    partFormat b it ≠ "" ↔ ∃ f, it.format = some f ∧ f ≠ "" := by
  unfold partFormat
  cases it.format with
  | none => simp
  | some f =>
    by_cases h : f = ""
    · simp [h]
    · have hne : " [" ++ formatLabel b f ++ "]" ≠ "" := by
        apply append3_ne_empty
        simp
      simp [h, hne]

theorem partRating_ne_iff (it : Item) :
    partRating it ≠ "" ↔ ∃ r, it.rating = some r ∧ r ≠ 0 := by
  unfold partRating
  cases it.rating with
  | none => simp
  | some r =>
    by_cases h : r = 0
    · simp [h]
    · have hne : " ⭐ " ++ toString r ++ "/5 stars" ≠ "" := by
        apply append3_ne_empty
        simp
      simp [h, hne]

theorem partPct_ne_iff (it : Item) :
    partPct it ≠ "" ↔ ∃ p, it.percentage = some p ∧ p ≠ 0 ∧ p < 100 := by
  unfold partPct
  cases it.percentage with
  | none => simp
  | some p =>
    by_cases h1 : p = 0
    · simp [h1]
    · by_cases h2 : p < 100
      · have hne : " (" ++ toString p ++ "% complete)" ≠ "" := by
          apply append3_ne_empty
          simp
        simp [h1, h2, hne]
      · simp [h1, h2]

theorem partCompleted_ne_iff (fd : String → String) (it : Item) :
    partCompleted fd it ≠ "" ↔ ∃ d, it.completedDate = some d ∧ d ≠ "" := by
  unfold partCompleted
  cases it.completedDate with
  | none => simp
  | some d =>
    by_cases h : d = ""
    · simp [h]
    · have hne : " - Completed: " ++ fd d ≠ "" := by
        apply append_ne_empty_left
        simp
      simp [h, hne]

theorem partStarted_ne_iff (fd : String → String) (it : Item) :
    partStarted fd it ≠ "" ↔ ∃ d, it.dateStarted = some d ∧ d ≠ "" := by
  unfold partStarted
  cases it.dateStarted with
  | none => simp
  | some d =>
    by_cases h : d = ""
    · simp [h]
    · have hne : " - Started: " ++ fd d ≠ "" := by
        apply append_ne_empty_left
        simp
      simp [h, hne]

theorem partAdded_ne_iff (fd : String → String) (it : Item) :
    partAdded fd it ≠ "" ↔ ∃ d, it.dateAdded = some d ∧ d ≠ "" := by
  unfold partAdded
  cases it.dateAdded with
  | none => simp
  | some d =>
    by_cases h : d = ""
    · simp [h]
    · have hne : " - Added: " ++ fd d ≠ "" := by
        apply append_ne_empty_left
        simp
      simp [h, hne]

theorem partSource_ne_iff (it : Item) :
    partSource it ≠ "" ↔ ∃ src, it.source = some src ∧ src ≠ "" := by
  unfold partSource
  cases it.source with
  | none => simp
  | some src =>
    by_cases h : src = ""
    · simp [h]
    · have hne : " - Source: " ++ src ≠ "" := by
        apply append_ne_empty_left
        simp
      simp [h, hne]

theorem partAllTime_ne_iff (it : Item) :
    partAllTime it ≠ "" ↔ it.isAllTime = true := by
  unfold partAllTime
  cases h : it.isAllTime <;> simp [h]

theorem partNotes_ne_iff (it : Item) :
    partNotes it ≠ "" ↔ ∃ n, it.notes = some n ∧ n ≠ "" := by
  unfold partNotes
  cases it.notes with
  | none => simp
  | some n =>
    by_cases h : n = ""
    · simp [h]
    · have hne : "\n   Notes: \"" ++ n ++ "\"" ≠ "" := by
        apply append3_ne_empty
        simp
      simp [h, hne]

theorem mkNewBook_mirror_off (uid : Nat) (b : NewBook)
    (hm : b.isAllTime = false ∨ b.category = some Category.allTime) :
    ((mkNewBook uid b).isAllTime && ((mkNewBook uid b).category ≠ Category.allTime : Bool))
      = false := by
  rcases hm with h | h <;> simp [mkNewBook, h]

theorem addBook_get_self (uid : Nat) (b : NewBook) (s : Catalog)
    (h0 : (s.get (mkNewBook uid b).category).any
        (fun it => dupOf it (mkNewBook uid b)) = false) :
    (addBook uid b s).get (mkNewBook uid b).category
      = s.get (mkNewBook uid b).category ++ [mkNewBook uid b] := by
  unfold addBook
  simp only [h0, Bool.false_eq_true, if_false]
  split
  · rename_i hmir
    have hne : (mkNewBook uid b).category ≠ Category.allTime := by
      have h2 := ((Bool.and_eq_true _ _).mp hmir).2
      exact of_decide_eq_true h2
    rw [Catalog.get_allTimeUpd _ _ _ hne, Catalog.get_set_self]
  · rw [Catalog.get_set_self]

theorem addBook_of_dup_no_mirror (uid : Nat) (b : NewBook) (s : Catalog)
    (hd : (s.get (mkNewBook uid b).category).any
        (fun it => dupOf it (mkNewBook uid b)) = true)
    (hm : b.isAllTime = false ∨ b.category = some Category.allTime) :
    addBook uid b s = s := by
  unfold addBook
  simp only [hd, if_true, mkNewBook_mirror_off uid b hm, Bool.false_eq_true, if_false]

theorem catalogDupFree_set_append (s : Catalog) (c : Category) (nb : Item)
    (h : catalogDupFree s = true)
    (hd : (s.get c).any (fun it => dupOf it nb) = false) :
    catalogDupFree (s.set c ((s.get c) ++ [nb])) = true := by
  cases c <;> simp_all [catalogDupFree, Catalog.set, Catalog.get, dupFreeL_append_single]

/-!  Claim theorems. -/

/-- C1: the claim asserts ids from `add`/`bulkImport` are unique, never
reused, even for calls in rapid succession.  The generator
`Date.now() + Math.floor(Math.random() * 100000)` can repeat: with the
oracle readings (timestamp 1000, draw 6) and (timestamp 1001, draw 5) —
consecutive milliseconds, draws within range — both adds store id 1006, so
the set of the two assigned ids has cardinality one. -/
theorem C1_id_collision :
    genId 1000 6 = genId 1001 5 ∧ 6 < 100000 ∧ 5 < 100000 ∧
    ((addBook (genId 1001 5) bkBeta (addBook (genId 1000 6) bkAlpha initialBooks)).get
        Category.planned).map (fun it => it.id) = [200, 1006, 1006] := by
  decide

/-- C2 counterexample: adding the same completed all-time favorite twice is
not idempotent — the all-time mirror block sits outside the duplicate
check, so the rejected second call still appends a second mirror copy to
the `allTime` bucket. -/
theorem C2_cex :
    addBook 11 bkGammaAT (addBook 10 bkGammaAT initialBooks)
        ≠ addBook 10 bkGammaAT initialBooks ∧
    (addBook 11 bkGammaAT (addBook 10 bkGammaAT initialBooks)).allTime.map
        (fun it => it.title)
      = ["The Lord of the Rings", "Gamma", "Gamma"] := by
  decide

/-- C2 amended: duplicate rejection is idempotent for items that do not
trigger the all-time mirror (isAllTime false, or target category already
`allTime`): when the target bucket holds no case-insensitive title+author
match, a second add of a matching item of the same category leaves the
catalog exactly as after the first add, and the bucket stores exactly one
matching item. -/
theorem C2_amended (i1 i2 : Nat) (b1 b2 : NewBook) (s : Catalog)
    (hc : b1.category = b2.category)
    (hT : lowerEq b1.title b2.title = true)
    (hA : lowerEq b1.author b2.author = true)
    (hm : b2.isAllTime = false ∨ b2.category = some Category.allTime)
    (h0 : (s.get (mkNewBook i1 b1).category).any
        (fun it => dupOf it (mkNewBook i1 b1)) = false) :
    addBook i2 b2 (addBook i1 b1 s) = addBook i1 b1 s ∧
    (((addBook i1 b1 s).get (mkNewBook i1 b1).category).filter
        (fun it => dupOf it (mkNewBook i1 b1))).length = 1 := by
  have hcat : (mkNewBook i2 b2).category = (mkNewBook i1 b1).category := by
    simp [mkNewBook, hc]
  have hdup : dupOf (mkNewBook i1 b1) (mkNewBook i2 b2) = true := by
    simp [dupOf, mkNewBook, hT, hA]
  have hget := addBook_get_self i1 b1 s h0
  have hd2 : ((addBook i1 b1 s).get (mkNewBook i2 b2).category).any
      (fun it => dupOf it (mkNewBook i2 b2)) = true := by
    rw [hcat, hget, List.any_append]
    simp [hdup]
  constructor
  · exact addBook_of_dup_no_mirror i2 b2 _ hd2 hm
  · rw [hget, List.filter_append]
    have h0f : (s.get (mkNewBook i1 b1).category).filter
        (fun it => dupOf it (mkNewBook i1 b1)) = [] := by
      rw [List.filter_eq_nil_iff]
      intro a ha
      exact List.any_eq_false.mp h0 a ha
    rw [h0f]
    simp [dupOf, lowerEq_self]

/-- C2 witness: the amended idempotence at a concrete input — the same
non-mirrored completed book added twice into the seeded catalog. -/
theorem C2_witness :
    addBook 11 bkGamma (addBook 10 bkGamma initialBooks)
        = addBook 10 bkGamma initialBooks ∧
    (((addBook 10 bkGamma initialBooks).get (mkNewBook 10 bkGamma).category).filter
        (fun it => dupOf it (mkNewBook 10 bkGamma))).length = 1 :=
  C2_amended 10 11 bkGamma bkGamma initialBooks rfl (by decide) (by decide)
    (Or.inl rfl) (by decide)

/-- C3 counterexample: `add` of a completed book with a caller-supplied
percentage of 50 stores percentage 50, not 100 — the defaulting expression
`book.percentage || (completed ? 100 : 0)` keeps any nonzero supplied
value. -/
theorem C3_cex :
    bkDelta50.category = some Category.completed ∧
    bkDelta50.percentage = some 50 ∧
    ((addBook 7 bkDelta50 initialBooks).get Category.completed).map
        (fun it => it.percentage)
      = [none, none, some 50] := by
  decide

/-- C3 amended: `add` forces percentage 100 on a completed item only when
the caller supplied no percentage or percentage 0; a nonzero supplied
percentage is stored unchanged (and `update` applies no normalization at
all, storing the payload verbatim). -/
theorem C3_amended (uid : Nat) (b : NewBook) (h : b.category = some Category.completed) :
    ((b.percentage = none ∨ b.percentage = some 0) →
        (mkNewBook uid b).percentage = some 100) ∧
    (∀ p, b.percentage = some p → p ≠ 0 → (mkNewBook uid b).percentage = some p) := by
  constructor
  · rintro (hp | hp) <;> simp [mkNewBook, h, hp]
  · intro p hp hne
    simp [mkNewBook, h, hp, hne]

/-- C3 witness: the amended defaulting at a concrete input — a completed
book with no supplied percentage is stored with percentage 100. -/
theorem C3_witness : (mkNewBook 5 bkDelta).percentage = some 100 :=
  (C3_amended 5 bkDelta rfl).1 (Or.inl rfl)

/-- C4 counterexample: `update` with id 999 (present in no bucket) and an
all-time-flagged payload changes the catalog — the all-time reconciliation
runs unconditionally and inserts the payload into `allTime`. -/
theorem C4_cex :
    updateBook 999 itEpsAT initialBooks ≠ initialBooks ∧
    (updateBook 999 itEpsAT initialBooks).allTime.map (fun it => it.id)
      = [400, 999] := by
  decide

/-- C4 amended: `update` with an id present in no bucket leaves the catalog
unchanged exactly when the trailing all-time reconciliation is a no-op:
either the payload has `isAllTime` true with category `allTime`, or it has
`isAllTime` false and its own id does not occur in the `allTime` bucket. -/
theorem C4_amended (bookId : Nat) (u : Item) (s : Catalog)
    (h1 : categoriesList.all (fun c => (s.get c).all (fun it => it.id ≠ bookId)) = true)
    (h2 : (u.isAllTime = true ∧ u.category = Category.allTime) ∨
          (u.isAllTime = false ∧ s.allTime.all (fun it => it.id ≠ u.id) = true)) :
    updateBook bookId u s = s := by
  have hfound : (categoriesList.any (fun c => (s.get c).any (fun it => it.id = bookId)))
      = false := by
    rw [List.any_eq_false]
    intro c hc hany
    rw [List.any_eq_true] at hany
    obtain ⟨it, hit, hid⟩ := hany
    have h1c := List.all_eq_true.mp (List.all_eq_true.mp h1 c hc) it hit
    exact absurd (of_decide_eq_true hid) (of_decide_eq_true h1c)
  unfold updateBook
  simp only [hfound, Bool.false_eq_true, if_false]
  rcases h2 with ⟨ha, hcata⟩ | ⟨ha, hall⟩
  · simp [ha, hcata]
  · simp only [ha, Bool.false_and, Bool.false_eq_true, if_false, Bool.not_false, if_true]
    have hfix : s.allTime.filter (fun it => it.id ≠ u.id) = s.allTime :=
      List.filter_eq_self.mpr (List.all_eq_true.mp hall)
    rw [hfix]

/-- C4 witness: the amended no-op at a concrete input — updating absent id
999 with a non-all-time payload leaves the seeded catalog unchanged. -/
theorem C4_witness : updateBook 999 itEps initialBooks = initialBooks :=
  C4_amended 999 itEps initialBooks (by decide) (Or.inr ⟨rfl, by decide⟩)

/-- C5 counterexample: `deleteBook` with the category name "bogus" does not
degrade to a logged no-op — `prevBooks["bogus"]` is `undefined` and the
`.filter` call raises a `TypeError` (the `none` result), so the claim's
"rejected with a log, state unchanged" fails. -/
theorem C5_cex : deleteBook 1 "bogus" initialBooks = none := by
  decide

/-- C5 amended: only `add` validates its category; `deleteBook` performs no
validation, so it raises (returns `none`) exactly when the category name is
not one of the five buckets, and never raises on a valid name.  `reorder`
and `bulkImport` share the same unvalidated bucket access. -/
theorem C5_amended (bookId : Nat) (cat : String) (s : Catalog) :
    (deleteBook bookId cat s).isSome = (categoryOfString cat).isSome := by
  cases h : categoryOfString cat <;> simp [deleteBook, h]

/-- C6 counterexample: the per-bucket title+author uniqueness invariant is
not preserved by every operation — `bulkImport` performs no duplicate
check, so importing the same row twice into the seeded catalog (which
satisfies the invariant) yields a state violating it. -/
theorem C6_cex :
    catalogDupFree initialBooks = true ∧
    (importBooks (fun k => 800 + k) [bkDup, bkDup] initialBooks).map catalogDupFree
      = some false := by
  decide

/-- C6 amended: one `add` of an item that does not trigger the all-time
mirror (isAllTime false, or target category `allTime`) preserves the
per-bucket uniqueness invariant; `update`, `bulkImport` and the all-time
mirror path perform no duplicate check and can break it. -/
theorem C6_amended (uid : Nat) (b : NewBook) (s : Catalog)
    (h : catalogDupFree s = true)
    (hm : b.isAllTime = false ∨ b.category = some Category.allTime) :
    catalogDupFree (addBook uid b s) = true := by
  unfold addBook
  simp only [mkNewBook_mirror_off uid b hm, Bool.false_eq_true, if_false]
  split
  · exact h
  · rename_i hd
    simp only [Bool.not_eq_true] at hd
    exact catalogDupFree_set_append s _ _ h hd

/-- C6 witness: the amended preservation at a concrete input — one
non-mirrored add into the seeded catalog keeps the invariant. -/
theorem C6_witness : catalogDupFree (addBook 77 bkDup initialBooks) = true :=
  C6_amended 77 bkDup initialBooks (by decide) (Or.inl rfl)

/-- C7: the claim (and the component's own "Supported formats" help text)
says the line `1. "Project Hail Mary" by Andy Weir (2021) ⭐ 5/5` parses to
one candidate with title, author, year 2021, rating 5 and confidence at
least 0.8.  In the code the `⭐` character is a member of
`allTimeKeywords`, so the header rules consume the line (setting
`currentCategory` to `allTime`) before item parsing ever runs, and the
parse yields no candidate at all — the `⭐\s*(\d+)` rating branch is
unreachable for any line containing `⭐`. -/
theorem C7_star_line_is_header :
    parseImportText "1. \"Project Hail Mary\" by Andy Weir (2021) ⭐ 5/5" = [] ∧
    (parseLine { currentCategory := .completed, currentType := .unknown }
        ("1. \"Project Hail Mary\" by Andy Weir (2021) ⭐ 5/5").data).1.currentCategory
      = Category.allTime := by
  decide

/-- C8 counterexample: parsing `Oppenheimer - Christopher Nolan (2023)`
with no prior header yields a candidate with `isBook = true`, not `false`:
the keyword scores tie at zero and the tie-break
`!line.includes('director') && !line.includes('film')` defaults to book
because the word "director" does not occur in the line. -/
theorem C8_cex :
    (parseImportText "Oppenheimer - Christopher Nolan (2023)").map (fun it => it.isBook)
      = [true] := by
  decide

/-- C8 amended: the line yields exactly one candidate with title
"Oppenheimer", author "Christopher Nolan", year 2023 — but `isBook`
resolves to `true` (the zero-zero tie-break treats a line without
"director"/"film" as a book), with confidence 0.9 (9 tenths). -/
theorem C8_amended :
    parseImportText "Oppenheimer - Christopher Nolan (2023)"
      = [{ title := "Oppenheimer", author := "Christopher Nolan", year := some 2023,
           rating := none, notes := none, format := none,
           category := Category.completed, isBook := true, confidence := 9 }] := by
  decide

/-- C9 counterexample: a completed item with `percentage = 100` — a present
optional field — produces an export line with no percentage segment, because
the source appends it only under `item.percentage && item.percentage < 100`;
so "appended if and only if present" fails. -/
theorem C9_cex :
    itPct100.percentage = some 100 ∧
    containsL "% complete".data (formatItem (fun d => d) itPct100 0 true).data = false := by
  decide

/-- C9 amended: the export line is the base segment followed by the
optional-field segments in the fixed source order, where each segment is
present iff its field is present AND truthy (nonzero, nonempty) — and the
percentage segment additionally requires the value to be below 100. -/
theorem C9_decomposition (fd : String → String) (item : Item) (index : Nat) (isBook : Bool) :
    formatItem fd item index isBook
      = fmtBase item index ++ partFormat isBook item ++ partRating item ++ partPct item
        ++ partCompleted fd item ++ partStarted fd item ++ partAdded fd item
        ++ partSource item ++ partAllTime item ++ partNotes item
    ∧ (partFormat isBook item ≠ "" ↔ ∃ f, item.format = some f ∧ f ≠ "")
    ∧ (partRating item ≠ "" ↔ ∃ r, item.rating = some r ∧ r ≠ 0)
    ∧ (partPct item ≠ "" ↔ ∃ p, item.percentage = some p ∧ p ≠ 0 ∧ p < 100)
    ∧ (partCompleted fd item ≠ "" ↔ ∃ d, item.completedDate = some d ∧ d ≠ "")
    ∧ (partStarted fd item ≠ "" ↔ ∃ d, item.dateStarted = some d ∧ d ≠ "")
    ∧ (partAdded fd item ≠ "" ↔ ∃ d, item.dateAdded = some d ∧ d ≠ "")
    ∧ (partSource item ≠ "" ↔ ∃ src, item.source = some src ∧ src ≠ "")
    ∧ (partAllTime item ≠ "" ↔ item.isAllTime = true)
    ∧ (partNotes item ≠ "" ↔ ∃ n, item.notes = some n ∧ n ≠ "") := by
  refine ⟨?_, partFormat_ne_iff _ _, partRating_ne_iff _, partPct_ne_iff _,
    partCompleted_ne_iff _ _, partStarted_ne_iff _ _, partAdded_ne_iff _ _,
    partSource_ne_iff _, partAllTime_ne_iff _, partNotes_ne_iff _⟩
  unfold formatItem
  rw [fmtNotesStep_eq, fmtAllTimeStep_eq, fmtSourceStep_eq, fmtAddedStep_eq,
    fmtStartedStep_eq, fmtCompletedStep_eq, fmtPctStep_eq, fmtRatingStep_eq,
    fmtFormatStep_eq]

/-- C10: the parser never clamps an extracted rating to the 0-5 range: the
line `"Alpha Beta" by Gamma (2020) 7/5 [audio]` yields one candidate whose
rating is 7 (beyond 5), while on the same pass the confidence sum
0.5+0.3+0.1+0.1+0.1 (11 tenths) is capped to exactly 1.0 (10 tenths). -/
theorem C10_rating_unclamped :
    parseImportText "\"Alpha Beta\" by Gamma (2020) 7/5 [audio]"
      = [{ title := "Alpha Beta", author := "Gamma", year := some 2020,
           rating := some 7, notes := none, format := some "audio",
           category := Category.completed, isBook := true, confidence := 10 }] ∧
    5 < 7 := by
  decide
